import Mathlib

namespace Tesla

/-- JSON values, as stored in the token cache file and returned by the API. -/
inductive JVal where
  | jnull
  | jbool (b : Bool)
  | jnum (n : Int)
  | jstr (s : String)
  | jobj (fields : List (String × JVal))

/-- Association-list lookup, modelling Python dict key access. -/
def jlookup : List (String × JVal) → String → Option JVal
  | [], _ => none
  | (k, v) :: rest, key => if k = key then some v else jlookup rest key

/-- Python subscript access `j[key]`: `none` models a raised KeyError
(object without the key) or TypeError (subscripting a non-dict with a string). -/
def jGet (j : JVal) (k : String) : Option JVal :=
  match j with
  | JVal.jobj fields => jlookup fields k
  | _ => none

/-- Python dict update `d[key] = v`: replaces the binding if present, else appends. -/
def jinsert : List (String × JVal) → String → JVal → List (String × JVal)
  | [], key, v => [(key, v)]
  | (k, w) :: rest, key, v =>
      if k = key then (k, v) :: rest else (k, w) :: jinsert rest key v

/-- Python truthiness of a JSON value (`bool(x)`). -/
def jTruthy : JVal → Bool
  | JVal.jnull => false
  | JVal.jbool b => b
  | JVal.jnum n => n != 0
  | JVal.jstr s => s != ""
  | JVal.jobj l => !l.isEmpty

/-- Python `<=` on JSON scalars: defined for two numbers or two strings
(lexicographic); `none` models a raised TypeError, in particular for
`int <= str` as in `_load_cache`. -/
def pyLe : JVal → JVal → Option Bool
  | JVal.jnum a, JVal.jnum b => some (decide (a ≤ b))
  | JVal.jstr a, JVal.jstr b => some (decide (a < b) || decide (a = b))
  | _, _ => none

/-! Base64, modelling `base64.urlsafe_b64encode` as used by
`Client._new_code_verifier` and `Client.authorization_url`. -/

/-- The URL-safe base64 alphabet (RFC 4648 section 5). -/
def b64urlAlphabet : List Char :=
  "ABCDEFGHIJKLMNOPQRSTUVWXYZabcdefghijklmnopqrstuvwxyz0123456789-_".toList

/-- Table lookup for one 6-bit group. -/
def b64urlChar (n : Nat) : Char := b64urlAlphabet.getD n '?'

/-- URL-safe base64 encoding of a byte list, with `=` padding, exactly as
`base64.urlsafe_b64encode` produces it. -/
def b64encGroups : List Nat → List Char
  | b1 :: b2 :: b3 :: rest =>
      b64urlChar (b1 / 4) :: b64urlChar ((b1 % 4) * 16 + b2 / 16) ::
        b64urlChar ((b2 % 16) * 4 + b3 / 64) :: b64urlChar (b3 % 64) :: b64encGroups rest
  | [b1, b2] =>
      [b64urlChar (b1 / 4), b64urlChar ((b1 % 4) * 16 + b2 / 16), b64urlChar ((b2 % 16) * 4), '=']
  | [b1] =>
      [b64urlChar (b1 / 4), b64urlChar ((b1 % 4) * 16), '=', '=']
  | [] => []

/-- Python `bytes.rstrip(b'=')`: removes every trailing occurrence of `a`. -/
def rstripEq (a : Char) (l : List Char) : List Char :=
  (l.reverse.dropWhile (fun c => c == a)).reverse

/-- Model of `Client._new_code_verifier`: URL-safe base64 of the 32 random
bytes produced by `os.urandom(32)`, with trailing `=` stripped.  The random
bytes are a parameter, since `urandom` is an external randomness source. -/
def newCodeVerifier (randomBytes : List Nat) : List Char :=
  rstripEq '=' (b64encGroups randomBytes)

/-- Base64url without padding, as a string; applied to the SHA-256 digest it
is the PKCE code challenge of `Client.authorization_url`. -/
def b64NoPadStr (bytes : List Nat) : String :=
  (rstripEq '=' (b64encGroups bytes)).asString

/-- The PKCE RFC 7636 section 4.1 verifier alphabet `[A-Za-z0-9-._~]`,
stated from the spec for the charset property. -/
def verifierCharOk (c : Char) : Bool :=
  (65 ≤ c.toNat && c.toNat ≤ 90) || (97 ≤ c.toNat && c.toNat ≤ 122) ||
    (48 ≤ c.toNat && c.toNat ≤ 57) || c == '-' || c == '.' || c == '_' || c == '~'

/-! URL joining, modelling `urllib.parse.urljoin` on the inputs the client
uses: an absolute `http(s)` base URL joined with either an absolute path
(starting with `/`) or a bare relative segment. -/

/-- Splits a character list at the first `://`, returning the part before it
and the part after it. -/
def splitScheme : List Char → Option (List Char × List Char)
  | [] => none
  | ':' :: '/' :: '/' :: rest => some ([], rest)
  | c :: rest => (splitScheme rest).map (fun p => (c :: p.1, p.2))

/-- The origin `scheme://host` of an absolute URL. -/
def urlOrigin (url : String) : String :=
  match splitScheme url.toList with
  | some (scheme, rest) =>
      (scheme ++ ':' :: '/' :: '/' :: rest.takeWhile (fun c => c != '/')).asString
  | none => url

/-- Everything up to and including the last `/` of a URL. -/
def dropLastSegment (s : String) : String :=
  ((s.toList.reverse.dropWhile (fun c => c != '/')).reverse).asString

/-- Model of `urllib.parse.urljoin` restricted to the client's uses: a target
starting with `/` replaces the base URL's whole path, any other target
replaces the base URL's last path segment. -/
def urljoin (base target : String) : String :=
  match target.toList with
  | '/' :: _ => urlOrigin base ++ target
  | _ => dropLastSegment base ++ target

/-! The cache file, as read by `Client._load_cache` and written by
`Client._dump_cache`. -/

/-- Filesystem state seen by the cache loader and dumper: whether the cache
directory's own parent exists (for the default path, `~/.cache`), whether the
cache directory (`cache_file.parent`) exists, and the cache file itself —
`some j` when the file exists, is readable and parses as the JSON value `j`;
`none` when it is missing, unreadable or not valid JSON (in which case
`json.load` or `open` raises). -/
structure FS where
  grandparentExists : Bool
  parentExists : Bool
  file : Option JVal

/-- Uncaught Python exceptions of the modelled operations. -/
inductive PyErr where
  | typeError
  | valueError
  | attributeError
  | fileNotFoundError
deriving DecidableEq, Repr

/-- Model of `Client._load_cache`.  The body tries
`cache = json.load(open(self.cache_file))` followed by
`if cache[self.email]['sso']['expires_at'] <= datetime.now().strftime('%s'): self.expired = True`.
Every raised exception (IOError, JSONDecodeError, KeyError, TypeError from
subscripting or from comparing a number with the strftime string, and the
AttributeError from assigning the read-only `expired` property) is caught by
`except BaseException`, whose body runs `self.cache_file.parent.mkdir()` when
that directory is missing and then returns an empty dict.  `mkdir` is called
without `parents=True`, so when the cache directory's own parent is also
missing it raises FileNotFoundError out of the handler, and `_load_cache`
raises; an error carries the filesystem state at the raise.  `now` is the
wall-clock epoch-seconds reading; `strftime('%s')` renders it as a decimal
string. -/
def loadCache (fs : FS) (email : String) (now : Nat) : Except (PyErr × FS) (JVal × FS) :=
  let failPath : Except (PyErr × FS) (JVal × FS) :=
    if fs.parentExists then Except.ok (JVal.jobj [], fs)
    else if fs.grandparentExists then
      Except.ok (JVal.jobj [], { fs with parentExists := true })
    else Except.error (PyErr.fileNotFoundError, fs)
  match fs.file with
  | none => failPath
  | some j =>
      match ((jGet j email).bind (fun r => jGet r "sso")).bind (fun t => jGet t "expires_at") with
      | none => failPath
      | some ea =>
          match pyLe ea (JVal.jstr (toString now)) with
          | none => failPath
          | some true => failPath
          | some false => Except.ok (j, fs)

/-- Model of `Client._dump_cache`: `json.dump` into the cache file opened for
writing, replacing its contents; when the parent directory is missing, `open`
raises IOError, which is caught and logged, leaving the file untouched.  The
`chmod` call is not modelled (no claim concerns permissions). -/
def dumpCache (fs : FS) (cache : JVal) : FS :=
  if fs.parentExists then { fs with file := some cache } else fs

/-- A cache-file state that is missing, unreadable, or structurally invalid
for the given account identity: the file does not parse as JSON at all, or
the access chain `cache[email]['sso']['expires_at']` fails on its shape. -/
def structurallyInvalid (file : Option JVal) (email : String) : Bool :=
  match file with
  | none => true
  | some j => (((jGet j email).bind (fun r => jGet r "sso")).bind (fun t => jGet t "expires_at")).isNone

/-! The `Client` session state and its token-lifecycle operations. -/

/-- The session state of `tesla.client.Client` that the token-lifecycle
operations read and write: the account identity, the SSO base URL, the
current token (`str()` at construction, a dict after a fetch or a cache
read), the `access_token` attribute the underlying oauthlib client stores
separately from the token dict (`none` both for the initial unset attribute
and after `del self.access_token`), and the cache-file state. -/
structure ClientState where
  email : String
  sso_base_url : String
  token : JVal
  access_token : Option JVal
  fs : FS

/-- The `OAuth2Session.token` setter, run by every `self.token = ...`
assignment: it stores the new value and calls oauthlib's
`populate_token_attributes`, which assigns `self.access_token` only when the
new value contains the `access_token` key and otherwise leaves the attribute
unchanged — in particular, assigning an empty dict does not clear a
previously populated `access_token`. -/
def setToken (s : ClientState) (t : JVal) : ClientState :=
  { s with token := t,
           access_token := match jGet t "access_token" with
             | some v => some v
             | none => s.access_token }

/-- `OAuth2Session.authorized`: `bool(self.access_token)`, reading the
stored attribute (`getattr(self._client, 'access_token', None)`). -/
def authorized (s : ClientState) : Bool :=
  match s.access_token with
  | some v => jTruthy v
  | none => false

/-- Model of the `Client.expires_at` property: `self.token.get('expires_at')`. -/
def expiresAt (t : JVal) : Option JVal := jGet t "expires_at"

/-- Model of the `Client.expired` property: `self.expires_at - time() <= 0`.
`none` models the TypeError raised when `expires_at` is missing (`None`) or
not a number. -/
def pyExpired (t : JVal) (now : Int) : Option Bool :=
  match expiresAt t with
  | some (JVal.jnum ea) => some (decide (ea - now ≤ 0))
  | _ => none

/-- The external authentication flows `Client._token_updater` and
`Client.login` can hand off to: the full authorization-code exchange
(`fetch_token`, which opens the SSO page) or the refresh-token exchange
(`refresh_token`).  The models record which of them an operation invokes and
stop at that network boundary. -/
inductive AuthCall where
  | fetchToken
  | refreshToken
deriving DecidableEq, Repr

/-- The `elif self.email in cache` branch of `Client._token_updater`: reads
`url` and `sso` from the cached record into the session, returns early when
the read token is falsy, and otherwise evaluates
`if 0 < self.expires_at < time()`, invoking `self.fetch_token()` for an
expired token.  `cache[self.email].get(...)` on a non-dict record raises
AttributeError; the chained comparison on a non-numeric `expires_at` raises
TypeError.  The `self.token = ...` assignment runs the `setToken` setter.  A
non-string cached `url` is outside the model (the session field is typed
`String` here); no claim exercises it.  Errors carry the session state at
the raise. -/
def tokenUpdaterRead (s1 : ClientState) (entries : List (String × JVal)) (now : Nat) :
    Except (PyErr × ClientState) (ClientState × List AuthCall) :=
  match jlookup entries s1.email with
  | some (JVal.jobj rec) =>
      let newUrl := match jlookup rec "url" with
        | some (JVal.jstr u) => u
        | _ => s1.sso_base_url
      let tok := (jlookup rec "sso").getD (JVal.jobj [])
      let s2 := setToken { s1 with sso_base_url := newUrl } tok
      if jTruthy tok = false then Except.ok (s2, [])
      else
        match jGet tok "expires_at" with
        | some (JVal.jnum ea) =>
            if 0 < ea ∧ ea < (now : Int) then Except.ok (s2, [AuthCall.fetchToken])
            else Except.ok (s2, [])
        | _ => Except.error (PyErr.typeError, s2)
  | some _ => Except.error (PyErr.attributeError, s1)
  | none => Except.ok (s1, [])

/-- Model of `Client._token_updater`: loads the cache, checks it is a dict,
and either writes the current token to the cache (authorized with a fresh
token), reads a token back from the cache (`elif self.email in cache`), or
only logs (`else`).  When `self.authorized` holds but the expiry check
raises (for instance on an emptied token dict, where `expires_at` is `None`
and `None - time()` is a TypeError), the exception propagates; the `and`
short-circuits, so the expiry property is not evaluated for an unauthorized
session.  Errors carry the session state at the raise. -/
def tokenUpdater (s : ClientState) (now : Nat) :
    Except (PyErr × ClientState) (ClientState × List AuthCall) :=
  match loadCache s.fs s.email now with
  | Except.error (e, fs1) => Except.error (e, { s with fs := fs1 })
  | Except.ok (cache, fs1) =>
      let s1 : ClientState := { s with fs := fs1 }
      match cache with
      | JVal.jobj entries =>
          if authorized s1 then
            match pyExpired s1.token (Int.ofNat now) with
            | none => Except.error (PyErr.typeError, s1)
            | some false =>
                let cache2 := JVal.jobj (jinsert entries s1.email
                  (JVal.jobj [("url", JVal.jstr s1.sso_base_url), ("sso", s1.token)]))
                Except.ok ({ s1 with fs := dumpCache s1.fs cache2 }, [])
            | some true => tokenUpdaterRead s1 entries now
          else tokenUpdaterRead s1 entries now
      | _ => Except.error (PyErr.valueError, s1)

/-- Model of `Client.login` up to the external token exchange: runs
`self._token_updater()` and then invokes `self.fetch_token()`, which runs the
full authorization flow unless the session is already authorized (its first
line returns the current token in that case).  The vehicle-map population
after a successful exchange is past the modelled network boundary. -/
def login (s : ClientState) (now : Nat) :
    Except (PyErr × ClientState) (ClientState × List AuthCall) :=
  match tokenUpdater s now with
  | Except.error es => Except.error es
  | Except.ok (s1, calls) =>
      if authorized s1 then Except.ok (s1, calls)
      else Except.ok (s1, calls ++ [AuthCall.fetchToken])

/-- Model of `Client.logout`: `None` for an unauthorized session; otherwise
builds the logout URL from `/oauth2/v3/logout?client_id=ownerapi` on the
current SSO base URL, assigns `self.token = dict()` (through the `setToken`
setter, which leaves `access_token` populated), runs `self._token_updater()`
— whose exceptions propagate out of `logout` — then deletes the
`access_token` attribute and returns the URL.  The optional browser sign-out
only opens the same URL externally and is not modelled. -/
def logout (s : ClientState) (now : Nat) :
    Except (PyErr × ClientState) (ClientState × Option String) :=
  if authorized s = false then Except.ok (s, none)
  else
    let url := urljoin s.sso_base_url "/oauth2/v3/logout?client_id=ownerapi"
    let s1 := setToken s (JVal.jobj [])
    match tokenUpdater s1 now with
    | Except.error es => Except.error es
    | Except.ok (s2, _) => Except.ok ({ s2 with access_token := none }, some url)

/-! `Client.authorization_url`: PKCE parameters and the region-discovery
probe. -/

/-- Query-string encoding of parameters, modelling the `urlencode` inside the
base `OAuth2Session.authorization_url`. -/
def encodeQuery (ps : List (String × String)) : String :=
  String.intercalate "&" (ps.map (fun p => p.1 ++ "=" ++ p.2))

/-- Model of the base `requests_oauthlib.OAuth2Session.authorization_url`
(an external collaborator): appends the standard authorization-code query
parameters for `client_id='ownerapi'`, the extra keyword parameters and the
CSRF `state` to the endpoint URL, returning the URL together with the state.
The state string is a parameter, being externally generated randomness. -/
def baseAuthorizationUrl (url : String) (state : String) (extra : List (String × String)) :
    String × String :=
  (url ++ "?" ++
      encodeQuery ([("response_type", "code"), ("client_id", "ownerapi")] ++ extra ++
        [("state", state)]),
    state)

/-- The PKCE keyword arguments `Client.authorization_url` adds before calling
the base method: `code_challenge` is base64url-no-padding of the SHA-256
digest of the verifier, and `code_challenge_method` is `S256`.  The digest
function is a parameter, `hashlib.sha256` being an external collaborator. -/
def authKwargs (sha : List Char → List Nat) (verifier : List Char) : List (String × String) :=
  [("code_challenge", b64NoPadStr (sha verifier)), ("code_challenge_method", "S256")]

/-- The login_hint probe response, as `requests` presents it: the HTTP status
code and the `Location` header when present. -/
structure ProbeResponse where
  status : Nat
  location : Option String
deriving DecidableEq, Repr

/-- `requests.Response.is_redirect`: a `Location` header is present and the
status is one of 301, 302, 303, 307, 308. -/
def isRedirectResp (r : ProbeResponse) : Bool :=
  (r.status == 301 || r.status == 302 || r.status == 303 ||
      r.status == 307 || r.status == 308) && r.location.isSome

/-- `requests.Response.ok`: status below 400. -/
def respOk (r : ProbeResponse) : Bool := r.status < 400

/-- The first authorization URL `Client.authorization_url` builds, before the
login_hint is added (`without_hint` in the source). -/
def withoutHintUrl (sha : List Char → List Nat) (s : ClientState) (verifierBytes : List Nat)
    (state : String) : String :=
  (baseAuthorizationUrl (urljoin s.sso_base_url "/oauth2/v3/authorize") state
      (authKwargs sha (newCodeVerifier verifierBytes))).1

/-- The probed authorization URL with `login_hint` set to the account
identity and the same state (`with_hint` in the source). -/
def withHintUrl (sha : List Char → List Nat) (s : ClientState) (verifierBytes : List Nat)
    (state : String) : String :=
  (baseAuthorizationUrl (urljoin s.sso_base_url "/oauth2/v3/authorize") state
      (authKwargs sha (newCodeVerifier verifierBytes) ++ [("login_hint", s.email)])).1

/-- Model of `Client.authorization_url`: `None` when already authorized;
otherwise generates the verifier from fresh random bytes, builds the two
URLs, probes the hinted one without following redirects, rewrites the SSO
base URL to the redirect target's origin on a redirect, and returns the
redirect target when the probe response is ok, the hinted URL when the
response is ok without being a redirect, and the unhinted URL otherwise. -/
def authorizationUrl (sha : List Char → List Nat) (s : ClientState) (verifierBytes : List Nat)
    (state : String) (resp : ProbeResponse) : ClientState × Option String :=
  if authorized s then (s, none)
  else
    let without_hint := withoutHintUrl sha s verifierBytes state
    let with_hint := withHintUrl sha s verifierBytes state
    if isRedirectResp resp then
      let loc := resp.location.getD ""
      ({ s with sso_base_url := urljoin loc "/" },
        some (if respOk resp then loc else without_hint))
    else
      (s, some (if respOk resp then with_hint else without_hint))

/-! The generic request wrappers of `tesla._request_wrappers`. -/

/-- An HTTP response as the external `requests` library returns it: the
status code, and the body — `some j` when `response.json()` parses to `j`,
`none` when the body is not JSON (in which case `.json()` raises). -/
structure HttpResponse where
  status : Nat
  body : Option JVal

/-- The failures the wrappers can surface: the body is not JSON, the body's
top level has no `response` key, or the top level is not an object at all.
None of the constructors carries the HTTP status: the wrappers never read
it. -/
inductive ReqError where
  | jsonDecodeError
  | keyError (key : String)
  | typeError
deriving DecidableEq, Repr

/-- Shared body of the `get` and `post` wrappers after the request returns:
`response.json()['response']`.  `requests.get`/`requests.post` do not raise
`HTTPError` for a non-2xx status (only `raise_for_status` would, and the
wrappers never call it), so the response reaches this line whatever its
status; the `except HTTPError` clause only re-raises and is unreachable for
status errors. -/
def unwrapEnvelope (resp : HttpResponse) : Except ReqError JVal :=
  match resp.body with
  | none => Except.error ReqError.jsonDecodeError
  | some (JVal.jobj fields) =>
      match jlookup fields "response" with
      | some v => Except.ok v
      | none => Except.error (ReqError.keyError "response")
  | some _ => Except.error ReqError.typeError

/-- Model of `_request_wrappers.get`: one GET request is sent (no retry
exists in the body), and its response is unwrapped. -/
def wrapGet (resp : HttpResponse) : Except ReqError JVal := unwrapEnvelope resp

/-- Model of `_request_wrappers.post`: one POST request is sent (no retry
exists in the body), and its response is unwrapped. -/
def wrapPost (resp : HttpResponse) : Except ReqError JVal := unwrapEnvelope resp

/-! `tesla.energy.Energy`. -/

/-- The state `Energy.__init__` builds (headers are not needed by any
claim). -/
structure EnergyState where
  base_url : String

/-- Model of `Energy.__init__`: the assigned `base_url` is a plain string
literal, not an f-string, so `site_id` is never interpolated. -/
def energyInit (site_id : String) : EnergyState :=
  { base_url := "https://owner-api.teslamotors.com/api/1/energy_sites/{site_id}/" }

/-! `tesla.vehicle.command.Command.set_valet_mode`. -/

/-- Python `str.zfill` for non-negative inputs: left-pads with `0` up to the
width. -/
def zfill (width : Nat) (s : String) : String :=
  if s.length < width then (List.replicate (width - s.length) '0').asString ++ s else s

/-- The `Command` class object.  `set_valet_mode`'s default `valet_pin` is
the value of `randint(0, 1000)` evaluated once, when the class body is
evaluated at import time, so it is stored on the class, not drawn per
call. -/
structure CommandClass where
  valetPinDefault : Nat

/-- Evaluation of the `Command` class body: the single `randint(0, 1000)`
draw (a parameter, randomness being external) becomes the stored default. -/
def commandClassBody (randintDraw : Nat) : CommandClass :=
  { valetPinDefault := randintDraw }

/-- The POST request a valet-mode call produces. -/
structure ValetModeCall where
  endpoint : String
  password : String
deriving DecidableEq, Repr

/-- Model of `Command.set_valet_mode`: a call that omits `valet_pin` uses the
class-stored default; the PIN is rendered with `str(...).zfill(4)` and sent
as the `password` parameter.  The `on` argument is accepted and unused by the
source body. -/
def setValetMode (cls : CommandClass) (_on : Bool) (valet_pin : Option Nat) : ValetModeCall :=
  let pin := valet_pin.getD cls.valetPinDefault
  { endpoint := "command/set_valet_mode", password := zfill 4 (toString pin) }

/-! Concrete inputs used by the closed theorems below. -/

/-- A sample account identity. -/
def sampleEmail : String := "user@example.com"

/-- A well-formed token object with a numeric (epoch-seconds) `expires_at`,
as the token endpoint returns and `_dump_cache` persists it. -/
def sampleSso : JVal :=
  JVal.jobj [("access_token", JVal.jstr "tok123"), ("refresh_token", JVal.jstr "ref456"),
    ("expires_at", JVal.jnum 9999999999), ("token_type", JVal.jstr "Bearer")]

/-- The cache record `_token_updater` writes for `sampleEmail`. -/
def sampleRecord : JVal :=
  JVal.jobj [("url", JVal.jstr "https://auth.tesla.com"), ("sso", sampleSso)]

/-- A cache store holding exactly the record for `sampleEmail`. -/
def sampleStore : JVal := JVal.jobj [(sampleEmail, sampleRecord)]

/-- A token object whose `expires_at` (epoch seconds) lies 10 seconds in the
past relative to `now = 1700000000`. -/
def staleSso : JVal :=
  JVal.jobj [("access_token", JVal.jstr "tok123"), ("refresh_token", JVal.jstr "ref456"),
    ("expires_at", JVal.jnum 1699999990), ("token_type", JVal.jstr "Bearer")]

/-- A cache store holding a stale record for `sampleEmail`. -/
def staleStore : JVal :=
  JVal.jobj [(sampleEmail,
    JVal.jobj [("url", JVal.jstr "https://auth.tesla.com"), ("sso", staleSso)])]

/-- A fresh, unauthenticated session whose cache file holds the stale record
for its email: the scenario of the login claim. -/
def staleCacheSession : ClientState :=
  { email := sampleEmail, sso_base_url := "https://auth.tesla.com",
    token := JVal.jstr "", access_token := none, fs := ⟨true, true, some staleStore⟩ }

/-- An authorized session whose cache file holds its own record: the
scenario of the logout claim.  Its `access_token` attribute holds the value
`populate_token_attributes` stored when the token was fetched. -/
def authorizedSession : ClientState :=
  { email := sampleEmail, sso_base_url := "https://auth.tesla.com",
    token := sampleSso, access_token := some (JVal.jstr "tok123"),
    fs := ⟨true, true, some sampleStore⟩ }

/-- A fresh, unauthenticated session with no cache file: the scenario of the
authorization-URL claims. -/
def freshSession : ClientState :=
  { email := sampleEmail, sso_base_url := "https://auth.tesla.com",
    token := JVal.jstr "", access_token := none, fs := ⟨true, true, none⟩ }

/-- 32 concrete random bytes for the PKCE witness. -/
def sampleBytes : List Nat := List.replicate 32 0

/-- A concrete stand-in for the external SHA-256 digest function. -/
def shaZero : List Char → List Nat := fun _ => List.replicate 32 0

/-- A concrete redirect probe response routing to a second region. -/
def redirectResp : ProbeResponse :=
  { status := 302, location := some "https://auth-region2.example.com/login?x=1" }

/-- A token object with `expires_at` exactly at the boundary value 100. -/
def boundaryToken : JVal := JVal.jobj [("expires_at", JVal.jnum 100)]

/-- A payload for the save-after-failed-load witness. -/
def sampleDumpPayload : JVal := JVal.jobj [("k", JVal.jstr "v")]

/-! Helper lemmas. -/

/-- A redirect response is an ok response: the redirect statuses are below
400. -/
theorem respOk_of_isRedirectResp (r : ProbeResponse) (h : isRedirectResp r = true) :
    respOk r = true := by
  simp only [isRedirectResp, Bool.and_eq_true, Bool.or_eq_true, beq_iff_eq] at h
  simp only [respOk, decide_eq_true_eq]
  rcases h.1 with ((((h1 | h1) | h1) | h1) | h1) <;> omega

/-- Every entry of the base64url alphabet satisfies the PKCE verifier
charset, and none of them is the padding character. -/
theorem verifierCharOk_b64urlChar (n : Nat) (h : n < 64) :
    verifierCharOk (b64urlChar n) = true ∧ b64urlChar n ≠ '=' := by
  interval_cases n <;> exact ⟨by decide, by decide⟩

/-- Structure of the base64 encoding of a byte list whose length is 2 mod 3:
data characters from the alphabet followed by exactly one padding `=`. -/
theorem b64encGroups_two_mod_three (bs : List Nat) (hmod : bs.length % 3 = 2)
    (hb : ∀ b ∈ bs, b < 256) :
    ∃ l : List Char, b64encGroups bs = l ++ ['=']
      ∧ l ≠ []
      ∧ (∀ c ∈ l, verifierCharOk c = true ∧ c ≠ '=')
      ∧ l.length = 4 * (bs.length / 3) + 3 := by
  induction bs using b64encGroups.induct with
  | case1 b1 b2 b3 rest ih =>
      have hmod' : rest.length % 3 = 2 := by
        simp only [List.length_cons] at hmod; omega
      have hb' : ∀ b ∈ rest, b < 256 := fun b hbm => hb b (by simp [hbm])
      obtain ⟨l', h1, h2, h3, h4⟩ := ih hmod' hb'
      have hb1 : b1 < 256 := hb b1 (by simp)
      have hb2 : b2 < 256 := hb b2 (by simp)
      have hb3 : b3 < 256 := hb b3 (by simp)
      refine ⟨b64urlChar (b1 / 4) :: b64urlChar ((b1 % 4) * 16 + b2 / 16) ::
        b64urlChar ((b2 % 16) * 4 + b3 / 64) :: b64urlChar (b3 % 64) :: l', ?_, ?_, ?_, ?_⟩
      · simp [b64encGroups, h1]
      · simp
      · intro c hc
        simp only [List.mem_cons] at hc
        rcases hc with rfl | rfl | rfl | rfl | hc
        · exact verifierCharOk_b64urlChar _ (by omega)
        · exact verifierCharOk_b64urlChar _ (by omega)
        · exact verifierCharOk_b64urlChar _ (by omega)
        · exact verifierCharOk_b64urlChar _ (by omega)
        · exact h3 c hc
      · simp only [List.length_cons] at h4 ⊢; omega
  | case2 b1 b2 =>
      have hb1 : b1 < 256 := hb b1 (by simp)
      have hb2 : b2 < 256 := hb b2 (by simp)
      refine ⟨[b64urlChar (b1 / 4), b64urlChar ((b1 % 4) * 16 + b2 / 16),
        b64urlChar ((b2 % 16) * 4)], rfl, by simp, ?_, by simp⟩
      intro c hc
      simp only [List.mem_cons, List.not_mem_nil, or_false] at hc
      rcases hc with rfl | rfl | rfl
      · exact verifierCharOk_b64urlChar _ (by omega)
      · exact verifierCharOk_b64urlChar _ (by omega)
      · exact verifierCharOk_b64urlChar _ (by omega)
  | case3 b1 => simp at hmod
  | case4 => simp at hmod

/-- Stripping a single trailing padding character from a padding-free data
prefix. -/
theorem rstripEq_append_single (a : Char) (l : List Char) (hne : l ≠ [])
    (h : ∀ c ∈ l, c ≠ a) : rstripEq a (l ++ [a]) = l := by
  unfold rstripEq
  rw [List.reverse_append]
  simp only [List.reverse_cons, List.reverse_nil, List.nil_append, List.singleton_append]
  rw [List.dropWhile_cons]
  simp only [beq_self_eq_true, if_true]
  cases hl : l.reverse with
  | nil => exact absurd (by simpa using hl) hne
  | cons c t =>
      have hc : c ∈ l := by
        have hcr : c ∈ l.reverse := by rw [hl]; exact List.mem_cons_self c t
        simpa using hcr
      rw [List.dropWhile_cons]
      have hca : (c == a) = false := by
        simpa using h c hc
      rw [hca]
      simp only [Bool.false_eq_true, if_false]
      rw [← hl, List.reverse_reverse]

/-- The code verifier generated from 32 bytes has length exactly 43 and draws
all its characters from the PKCE verifier alphabet. -/
theorem newCodeVerifier_spec (bytes : List Nat) (h32 : bytes.length = 32)
    (hb : ∀ b ∈ bytes, b < 256) :
    (newCodeVerifier bytes).length = 43 ∧
      ∀ c ∈ newCodeVerifier bytes, verifierCharOk c = true := by
  obtain ⟨l, henc, hne, hok, hlen⟩ := b64encGroups_two_mod_three bytes (by omega) hb
  have hv : newCodeVerifier bytes = l := by
    unfold newCodeVerifier
    rw [henc, rstripEq_append_single '=' l hne (fun c hc => (hok c hc).2)]
  rw [hv]
  exact ⟨by omega, fun c hc => (hok c hc).1⟩

/-- Length of `zfill`. -/
theorem zfill_length (w : Nat) (s : String) : (zfill w s).length = max w s.length := by
  unfold zfill
  split
  next h =>
    have h1 : ((List.replicate (w - s.length) '0').asString).length = w - s.length := by
      show (List.replicate (w - s.length) '0').length = w - s.length
      simp
    rw [String.length_append, h1]
    omega
  next h => omega

set_option maxRecDepth 100000 in
/-- Decimal rendering of a number up to 1000 takes at most four characters. -/
theorem reprLen_le_four (r : Nat) (h : r ≤ 1000) : (Nat.repr r).length ≤ 4 := by
  have hall : ∀ x < 1001, (Nat.repr x).length ≤ 4 := by decide
  exact hall r (by omega)

/-! Claim theorems. -/

/-- C1: the save/load round-trip fails on the code.  Saving the well-formed
store for `sampleEmail` — whose `expires_at` is the epoch-seconds number
9999999999 — with `_dump_cache` and then loading with `_load_cache` yields
the empty dict, not the saved record: the loader compares the numeric
`expires_at` with the string `strftime('%s')`, the comparison raises
TypeError, and the `except BaseException` handler discards the parsed
cache. -/
theorem C1_roundtrip_broken :
    loadCache (dumpCache ⟨true, true, none⟩ sampleStore) sampleEmail 1700000000
        = Except.ok (JVal.jobj [], ⟨true, true, some sampleStore⟩)
      ∧ JVal.jobj [] ≠ sampleStore := by
  refine ⟨rfl, ?_⟩
  intro h
  simp [sampleStore] at h

/-- C8: for a session token carrying a numeric `expires_at`, the `expired`
property is true exactly when `expires_at - now <= 0`, and in particular at
the boundary `expires_at = now` it is true. -/
theorem C8_expired_iff (t : JVal) (now ea : Int) (h : expiresAt t = some (JVal.jnum ea)) :
    (pyExpired t now = some true ↔ ea - now ≤ 0)
      ∧ (now = ea → pyExpired t now = some true) := by
  unfold pyExpired
  rw [h]
  constructor
  · constructor
    · intro h2
      have h3 : decide (ea - now ≤ 0) = true := by
        simpa using h2
      simpa using h3
    · intro h2
      simp [h2]
  · intro h2
    subst h2
    simp

/-- C8 witness: the boundary token with `expires_at = 100` evaluated at
`now = 100` is expired. -/
theorem C8_expired_iff_witness :
    (pyExpired boundaryToken 100 = some true ↔ (100 : Int) - 100 ≤ 0)
      ∧ ((100 : Int) = 100 → pyExpired boundaryToken 100 = some true) :=
  C8_expired_iff boundaryToken 100 100 rfl

/-- C9: `Energy.__init__` assigns the base URL as a plain (non-f-string)
literal, so it is the same for any two site ids, the `site_id` placeholder is
never expanded, and the URL the GET wrapper builds from it keeps the literal
text `{site_id}` in place of the site's identifier. -/
theorem C9_energy_base_url_literal (s1 s2 : String) :
    (energyInit s1).base_url
        = "https://owner-api.teslamotors.com/api/1/energy_sites/{site_id}/"
      ∧ (energyInit s1).base_url = (energyInit s2).base_url
      ∧ urljoin (energyInit s1).base_url "live_status"
        = "https://owner-api.teslamotors.com/api/1/energy_sites/{site_id}/live_status" :=
  ⟨rfl, rfl, rfl⟩

/-- C10: the default valet PIN is the single `randint(0, 1000)` draw stored
on the `Command` class when its body is evaluated, so any two calls in the
same process that omit `valet_pin` send the identical `password` parameter:
that one draw rendered as a 4-character zero-padded string. -/
theorem C10_valet_default_once (r : Nat) (hr : r ≤ 1000) (on1 on2 : Bool) :
    (setValetMode (commandClassBody r) on1 none).password
        = (setValetMode (commandClassBody r) on2 none).password
      ∧ (setValetMode (commandClassBody r) on1 none).password = zfill 4 (toString r)
      ∧ (setValetMode (commandClassBody r) on1 none).password.length = 4 := by
  refine ⟨rfl, rfl, ?_⟩
  show (zfill 4 (Nat.repr r)).length = 4
  rw [zfill_length]
  have := reprLen_le_four r hr
  omega

/-- C10 witness: with the class-body draw 7, two pin-omitting calls (one
activating, one deactivating) send the same password `0007`. -/
theorem C10_valet_default_once_witness :
    (setValetMode (commandClassBody 7) true none).password
        = (setValetMode (commandClassBody 7) false none).password
      ∧ (setValetMode (commandClassBody 7) true none).password = zfill 4 (toString 7)
      ∧ (setValetMode (commandClassBody 7) true none).password.length = 4 :=
  C10_valet_default_once 7 (by omega) true false

/-- C4 counterexample: an HTTP 401 response whose JSON body happens to carry
a `response` key is not surfaced as a failure at all — the GET wrapper
returns the payload as a success, because neither wrapper ever consults the
status (no `raise_for_status`, and `requests` does not raise `HTTPError` by
itself). -/
theorem C4_counterexample_401_ok :
    wrapGet { status := 401, body := some (JVal.jobj [("response", JVal.jnum 5)]) }
      = Except.ok (JVal.jnum 5) := rfl

/-- C4 amended: the wrappers issue a single request and ignore its HTTP
status entirely — the outcome is a function of the body alone; a body with a
`response` key yields that value even for a non-2xx status, and otherwise a
key/JSON error without the status is raised.  No retry exists. -/
theorem C4_status_ignored (s1 s2 : Nat) (b : Option JVal) (v : JVal)
    (rest : List (String × JVal)) :
    wrapGet { status := s1, body := b } = wrapGet { status := s2, body := b }
      ∧ wrapPost { status := s1, body := b } = wrapPost { status := s2, body := b }
      ∧ wrapGet { status := s1, body := some (JVal.jobj (("response", v) :: rest)) }
        = Except.ok v
      ∧ wrapGet { status := s1, body := none } = Except.error ReqError.jsonDecodeError :=
  ⟨rfl, rfl, rfl, rfl⟩

/-- C5: every PKCE verifier generated from the 32 `urandom` bytes has length
43 (hence within the RFC 7636 bounds 43..128) over the alphabet
`[A-Za-z0-9-._~]`, and the `code_challenge` keyword placed into the
authorization URL is exactly base64url-no-padding of the SHA-256 digest of
that verifier, with `code_challenge_method` set to `S256`. -/
theorem C5_pkce_verifier_challenge (bytes : List Nat) (sha : List Char → List Nat)
    (st : String) (s : ClientState) (h32 : bytes.length = 32) (hb : ∀ b ∈ bytes, b < 256) :
    (43 ≤ (newCodeVerifier bytes).length ∧ (newCodeVerifier bytes).length ≤ 128)
      ∧ (∀ c ∈ newCodeVerifier bytes, verifierCharOk c = true)
      ∧ List.lookup "code_challenge" (authKwargs sha (newCodeVerifier bytes))
        = some (b64NoPadStr (sha (newCodeVerifier bytes)))
      ∧ List.lookup "code_challenge_method" (authKwargs sha (newCodeVerifier bytes))
        = some "S256"
      ∧ withoutHintUrl sha s bytes st
        = urljoin s.sso_base_url "/oauth2/v3/authorize" ++ "?" ++
            encodeQuery ([("response_type", "code"), ("client_id", "ownerapi")]
              ++ authKwargs sha (newCodeVerifier bytes) ++ [("state", st)]) := by
  obtain ⟨hlen, hchars⟩ := newCodeVerifier_spec bytes h32 hb
  exact ⟨⟨by omega, by omega⟩, hchars, rfl, rfl, rfl⟩

/-- C5 witness: the PKCE properties at the concrete 32 zero bytes and
concrete digest stand-in. -/
theorem C5_pkce_verifier_challenge_witness :
    (43 ≤ (newCodeVerifier sampleBytes).length ∧ (newCodeVerifier sampleBytes).length ≤ 128)
      ∧ (∀ c ∈ newCodeVerifier sampleBytes, verifierCharOk c = true)
      ∧ List.lookup "code_challenge" (authKwargs shaZero (newCodeVerifier sampleBytes))
        = some (b64NoPadStr (shaZero (newCodeVerifier sampleBytes)))
      ∧ List.lookup "code_challenge_method" (authKwargs shaZero (newCodeVerifier sampleBytes))
        = some "S256"
      ∧ withoutHintUrl shaZero freshSession sampleBytes "stateXYZ"
        = urljoin freshSession.sso_base_url "/oauth2/v3/authorize" ++ "?" ++
            encodeQuery ([("response_type", "code"), ("client_id", "ownerapi")]
              ++ authKwargs shaZero (newCodeVerifier sampleBytes) ++ [("state", "stateXYZ")]) :=
  C5_pkce_verifier_challenge sampleBytes shaZero "stateXYZ" freshSession rfl
    (by intro b hbm; simp [sampleBytes] at hbm; omega)

/-- C6 counterexample: for the cache-file state in which the cache file is
missing because the cache directory's own parent is missing too, the
`except` handler's `mkdir()` — called without `parents=True` — raises
FileNotFoundError, so `_load_cache` raises instead of returning the NotFound
result, and a subsequent `_dump_cache` still fails to write (the cache
directory was never created). -/
theorem C6_mkdir_raises :
    loadCache ⟨false, false, none⟩ sampleEmail 1700000000
        = Except.error (PyErr.fileNotFoundError, ⟨false, false, none⟩)
      ∧ dumpCache ⟨false, false, none⟩ sampleDumpPayload = ⟨false, false, none⟩ :=
  ⟨rfl, rfl⟩

/-- C6 amended: provided the cache directory's own parent exists, every
cache-file state that is missing, unreadable or structurally invalid for the
session's email makes `_load_cache` return the empty dict without raising
(the `except BaseException` handler absorbs the failure), ensures the cache
directory exists, and a subsequent `_dump_cache` of any store succeeds; only
when that parent directory is itself missing does the handler's `mkdir()`
raise FileNotFoundError out of `_load_cache`. -/
theorem C6_load_fails_soft (fs : FS) (email : String) (now : Nat) (c : JVal)
    (hbad : structurallyInvalid fs.file email = true)
    (hgp : fs.grandparentExists = true) :
    loadCache fs email now = Except.ok (JVal.jobj [], { fs with parentExists := true })
      ∧ dumpCache { fs with parentExists := true } c
        = { fs with parentExists := true, file := some c } := by
  obtain ⟨g, p, f⟩ := fs
  replace hgp : g = true := hgp
  subst hgp
  have h1 : loadCache ⟨true, p, f⟩ email now = Except.ok (JVal.jobj [], ⟨true, true, f⟩) := by
    unfold loadCache
    unfold structurallyInvalid at hbad
    cases hf : f with
    | none => cases p <;> simp
    | some j =>
        rw [hf] at hbad
        have hbad2 : (((jGet j email).bind (fun r => jGet r "sso")).bind
            (fun t => jGet t "expires_at")).isNone = true := hbad
        cases hch : ((jGet j email).bind (fun r => jGet r "sso")).bind
            (fun t => jGet t "expires_at") with
        | none => cases p <;> simp [hch]
        | some ea => rw [hch] at hbad2; simp at hbad2
  refine ⟨h1, ?_⟩
  unfold dumpCache
  simp

/-- C6 witness for the amended statement: a missing cache file whose cache
directory is missing but whose parent (`~/.cache`) exists loads as the empty
dict, creates the directory, and the next save lands. -/
theorem C6_load_fails_soft_witness :
    loadCache ⟨true, false, none⟩ sampleEmail 1700000000
        = Except.ok (JVal.jobj [], (⟨true, true, none⟩ : FS))
      ∧ dumpCache (⟨true, true, none⟩ : FS) sampleDumpPayload
        = (⟨true, true, some sampleDumpPayload⟩ : FS) :=
  C6_load_fails_soft ⟨true, false, none⟩ sampleEmail 1700000000 sampleDumpPayload rfl rfl

/-- C2 counterexample: in the claimed scenario — an unauthenticated session
whose cache file holds its email's record with numeric `expires_at` in the
past (`now - 10`) — `login()` neither restores the cached record (the
loader's int-vs-string comparison raises and empties the cache) nor invokes
`refresh_token`: the only flow invoked is the full `fetch_token`
authorization flow, and the session token is still the initial empty
string when it is invoked. -/
theorem C2_counterexample_no_refresh :
    login staleCacheSession 1700000000
        = Except.ok (staleCacheSession, [AuthCall.fetchToken])
      ∧ AuthCall.refreshToken ∉ [AuthCall.fetchToken]
      ∧ staleCacheSession.token = JVal.jstr "" :=
  ⟨rfl, by decide, rfl⟩

/-- C2 amended: for every unauthenticated session whose cache file holds a
record for its email whose `sso` token carries a numeric `expires_at`
(stale or not), `login()` leaves the token unloaded and invokes
`fetch_token` — the full authorization flow — and never `refresh_token`;
the session and cache file are otherwise unchanged (the cache directory
exists, since the cache file does). -/
theorem C2_login_fetch_not_refresh (email ssoUrl : String) (gp : Bool)
    (m recf tokf : List (String × JVal)) (ea : Int) (now : Nat)
    (hrec : jlookup m email = some (JVal.jobj recf))
    (hsso : jlookup recf "sso" = some (JVal.jobj tokf))
    (hea : jlookup tokf "expires_at" = some (JVal.jnum ea)) :
    login { email := email, sso_base_url := ssoUrl, token := JVal.jstr "",
            access_token := none, fs := ⟨gp, true, some (JVal.jobj m)⟩ } now
      = Except.ok ({ email := email, sso_base_url := ssoUrl, token := JVal.jstr "",
                     access_token := none, fs := ⟨gp, true, some (JVal.jobj m)⟩ },
          [AuthCall.fetchToken]) := by
  have hload : loadCache ⟨gp, true, some (JVal.jobj m)⟩ email now
      = Except.ok (JVal.jobj [], ⟨gp, true, some (JVal.jobj m)⟩) := by
    unfold loadCache
    simp only [jGet, hrec, hsso, hea, Option.some_bind, pyLe, if_true]
  unfold login tokenUpdater
  simp only [hload, authorized, jGet, tokenUpdaterRead, jlookup,
    Bool.false_eq_true, if_false, List.nil_append]

/-- C2 witness for the amended statement, at the stale-cache scenario. -/
theorem C2_login_fetch_not_refresh_witness :
    login staleCacheSession 1700000000
      = Except.ok (staleCacheSession, [AuthCall.fetchToken]) :=
  C2_login_fetch_not_refresh sampleEmail "https://auth.tesla.com" true
    [(sampleEmail, JVal.jobj [("url", JVal.jstr "https://auth.tesla.com"), ("sso", staleSso)])]
    [("url", JVal.jstr "https://auth.tesla.com"), ("sso", staleSso)]
    [("access_token", JVal.jstr "tok123"), ("refresh_token", JVal.jstr "ref456"),
      ("expires_at", JVal.jnum 1699999990), ("token_type", JVal.jstr "Bearer")]
    1699999990 1700000000 rfl rfl rfl

/-- C3: `logout()` on an authorized session does not behave as claimed.
Assigning `self.token = dict()` leaves the oauthlib `access_token` attribute
populated (`populate_token_attributes` only assigns when the key is
present), so inside `_token_updater` the session still reports authorized;
evaluating `not self.expired` on the emptied dict computes `None - time()`
and raises an uncaught TypeError out of `logout()`.  The logout URL is never
returned, `del self.access_token` is never reached, nothing is persisted,
and the cache file still holds the original record whose `sso` token is
intact (non-empty, with its access token) — no tombstone. -/
theorem C3_logout_no_tombstone :
    logout authorizedSession 1700000000
        = Except.error (PyErr.typeError, { authorizedSession with token := JVal.jobj [] })
      ∧ ({ authorizedSession with token := JVal.jobj [] } : ClientState).fs.file
        = some sampleStore
      ∧ authorized { authorizedSession with token := JVal.jobj [] } = true
      ∧ jGet sampleRecord "sso" = some sampleSso
      ∧ jTruthy sampleSso = true :=
  ⟨rfl, rfl, rfl, rfl, rfl⟩

set_option maxRecDepth 100000 in
/-- C7 counterexample: when the probe yields no redirect but succeeds
(status 200), the returned URL is not the original authorization URL (the
one built before the probe, without the login hint): it is the probed URL
with `login_hint` appended. -/
theorem C7_counterexample_no_redirect :
    (authorizationUrl shaZero freshSession sampleBytes "stateXYZ"
          { status := 200, location := none }).2
        ≠ some (withoutHintUrl shaZero freshSession sampleBytes "stateXYZ")
      ∧ (authorizationUrl shaZero freshSession sampleBytes "stateXYZ"
          { status := 200, location := none }).2
        = some (withHintUrl shaZero freshSession sampleBytes "stateXYZ") :=
  ⟨by decide, rfl⟩

/-- C7 amended: for every unauthorized session, when the probe response is a
redirect the SSO base URL is rewritten to the redirect target's origin and
the redirect target is returned (redirect statuses are always ok); when it
is not a redirect the session is unchanged and the returned URL is the
hinted probe URL on a success response, the original unhinted authorization
URL otherwise. -/
theorem C7_region_redirect (sha : List Char → List Nat) (s : ClientState)
    (vb : List Nat) (st : String) (resp : ProbeResponse)
    (hauth : authorized s = false) :
    (isRedirectResp resp = true →
        (authorizationUrl sha s vb st resp).1.sso_base_url
            = urlOrigin (resp.location.getD "") ++ "/"
          ∧ (authorizationUrl sha s vb st resp).2 = some (resp.location.getD ""))
      ∧ (isRedirectResp resp = false →
          (authorizationUrl sha s vb st resp).1 = s
            ∧ (authorizationUrl sha s vb st resp).2
              = some (if respOk resp = true then withHintUrl sha s vb st
                  else withoutHintUrl sha s vb st)) := by
  constructor
  · intro hred
    have hok := respOk_of_isRedirectResp resp hred
    simp only [authorizationUrl, hauth, hred, hok, Bool.false_eq_true, if_false, if_true]
    exact ⟨rfl, trivial⟩
  · intro hred
    simp only [authorizationUrl, hauth, hred, Bool.false_eq_true, if_false]
    exact ⟨trivial, trivial⟩

/-- C7 witness for the amended statement: the concrete redirect to the
second region rewrites the SSO base URL to that region's origin and returns
the redirect target. -/
theorem C7_region_redirect_witness :
    (authorizationUrl shaZero freshSession sampleBytes "stateXYZ" redirectResp).1.sso_base_url
        = "https://auth-region2.example.com/"
      ∧ (authorizationUrl shaZero freshSession sampleBytes "stateXYZ" redirectResp).2
        = some "https://auth-region2.example.com/login?x=1" := by
  have h := (C7_region_redirect shaZero freshSession sampleBytes "stateXYZ"
    redirectResp rfl).1 rfl
  exact ⟨h.1.trans rfl, h.2.trans rfl⟩

end Tesla
